import Mathlib

/-!
Shallow embedding of the email-monitoring and webhook-forwarding pipeline of
the tradingview-signal-generator repository.

The embedding follows `src/app/services/processor.py` (class `EmailProcessor`)
and `src/app/models/database.py`.  The older duplicate implementation in
`src/email_forwarder/app/services/processor.py` is embedded under the
namespace `Forwarder` where it differs.

Modelling conventions:
  * Python `datetime` values are seconds since the Unix epoch (`Nat`);
    `timedelta(days=1)` is 86400 seconds.  `strftime` and `isoformat` are
    implemented with proleptic-Gregorian civil-date conversion.
  * The Gmail API message dictionaries become structures with `Option`
    fields for optional keys; the base64url `data` field of a part body is
    modelled as the already-decoded text when present.
  * Network effects are explicit: each webhook attempt gets an outcome
    (an HTTP status or a network error) supplied by the environment as a
    function of the attempt's position, and dispatch returns the list of
    requests it would POST.
  * Exceptions that the source lets escape to a caller are `Except` errors
    or a `raised` flag in the result record.
-/

namespace EmailForwarder

/-- Webhook configuration row (`WebhookConfig` in `app/models/database.py`). -/
structure WebhookConfig where
  name : String
  url : String
  active : Bool
  content_type : String
  send_raw_body : Bool
deriving DecidableEq, Repr

/-- Monitor configuration row (`EmailMonitorConfig` in `app/models/database.py`). -/
structure EmailMonitorConfig where
  email_address : String
  filter_subject : Option String
  filter_sender : Option String
  check_interval_seconds : Nat
  active : Bool
deriving DecidableEq, Repr

/-- Processed-email row (`ProcessedEmail` in `app/models/database.py`);
`message_id` carries a UNIQUE constraint in the schema. -/
structure ProcessedEmail where
  message_id : String
  sender : String
  subject : String
  received_at : Nat
  forwarded_successfully : Bool
  body_snippet : Option String
deriving DecidableEq, Repr

/-- Civil date (year, month, day) from a count of days since 1970-01-01,
proleptic Gregorian calendar (the standard days-to-civil conversion used by
`datetime`). -/
def civilFromDays (z : Nat) : Nat × Nat × Nat :=
  let z := z + 719468
  let era := z / 146097
  let doe := z % 146097
  let yoe := (doe - doe / 1460 + doe / 36524 - doe / 146096) / 365
  let y := yoe + era * 400
  let doy := doe - (365 * yoe + yoe / 4 - yoe / 100)
  let mp := (5 * doy + 2) / 153
  let d := doy - (153 * mp + 2) / 5 + 1
  let m := if mp < 10 then mp + 3 else mp - 9
  (if m ≤ 2 then y + 1 else y, m, d)

/-- Zero-padding to two digits, as in `strftime` fields `%m`/`%d`. -/
def pad2 (n : Nat) : String :=
  if n < 10 then "0" ++ toString n else toString n

/-- `datetime.strftime('%Y/%m/%d')` on a timestamp in epoch seconds. -/
def strftimeYMD (t : Nat) : String :=
  let c := civilFromDays (t / 86400)
  toString c.1 ++ "/" ++ pad2 c.2.1 ++ "/" ++ pad2 c.2.2

/-- `datetime.isoformat()` on a timestamp in epoch seconds. -/
def isoformat (t : Nat) : String :=
  let c := civilFromDays (t / 86400)
  let s := t % 86400
  toString c.1 ++ "-" ++ pad2 c.2.1 ++ "-" ++ pad2 c.2.2 ++ "T" ++
    pad2 (s / 3600) ++ ":" ++ pad2 (s % 3600 / 60) ++ ":" ++ pad2 (s % 60)

/-- JSON values appearing in the webhook payload (all four fields of the
payload dict are serialised from strings). -/
inductive JsonVal where
  | str (s : String)
deriving DecidableEq, Repr

/-- The structured payload dict literal built in `_forward_to_webhooks`:
`{"body": body, "subject": subject, "sender": sender,
"timestamp": datetime.now().isoformat()}`. -/
def buildPayload (body subject sender : String) (now : Nat) :
    List (String × JsonVal) :=
  [("body", .str body), ("subject", .str subject), ("sender", .str sender),
   ("timestamp", .str (isoformat now))]

/-- Body of an outgoing webhook POST: either the raw email text
(`data=body`) or the JSON payload (`json=payload`). -/
inductive HttpBody where
  | raw (s : String)
  | jsonBody (payload : List (String × JsonVal))
deriving DecidableEq, Repr

/-- An outgoing webhook POST request as built by `_send_to_webhook`. -/
structure WebhookRequest where
  url : String
  contentType : String
  body : HttpBody
deriving DecidableEq, Repr

/-- Environment-chosen outcome of one webhook POST attempt: an HTTP response
status, or an exception from the HTTP client. -/
inductive WebhookOutcome where
  | status (code : Nat)
  | netError
deriving DecidableEq, Repr

/-- `_process_webhook_response`: a response counts as success exactly when
its status is below 300. -/
def _process_webhook_response (code : Nat) : Bool :=
  decide (code < 300)

/-- `_send_to_webhook`: builds the request (raw body or JSON payload, with
the webhook's content type) and returns whether it succeeded; any exception
in the attempt is caught and reported as `false`. -/
def _send_to_webhook (webhook : WebhookConfig) (body : String)
    (payload : List (String × JsonVal)) (outcome : WebhookOutcome) :
    Bool × WebhookRequest :=
  let request : WebhookRequest :=
    { url := webhook.url
      contentType := webhook.content_type
      body := if webhook.send_raw_body then .raw body else .jsonBody payload }
  match outcome with
  | .status code => (_process_webhook_response code, request)
  | .netError => (false, request)

/-- The delivery loop of `_forward_to_webhooks` in
`src/app/services/processor.py`: each iteration overwrites `success` with
that webhook's result (`success = await self._send_to_webhook(...)`). -/
def forwardLoop (body : String) (payload : List (String × JsonVal))
    (outcome : Nat → WebhookOutcome) :
    List WebhookConfig → Nat → Bool → Bool × List WebhookRequest
  | [], _, success => (success, [])
  | w :: rest, i, _ =>
    let r := _send_to_webhook w body payload (outcome i)
    let tail := forwardLoop body payload outcome rest (i + 1) r.1
    (tail.1, r.2 :: tail.2)

/-- `_forward_to_webhooks` in `src/app/services/processor.py`: reads the
active webhooks, returns `false` when there are none, otherwise builds the
payload once and runs the delivery loop, returning the final `success` flag
and the requests sent. -/
def _forward_to_webhooks (body subject sender : String)
    (webhookDb : List WebhookConfig) (outcome : Nat → WebhookOutcome)
    (now : Nat) : Bool × List WebhookRequest :=
  let webhooks := webhookDb.filter (fun w => w.active)
  if webhooks.isEmpty then (false, [])
  else
    let payload := buildPayload body subject sender now
    forwardLoop body payload outcome webhooks 0 false

/-- Body record of a Gmail message part; `data` holds the decoded text of
the base64url `data` field when that field is present. -/
structure PartBody where
  data : Option String
deriving DecidableEq, Repr

/-- One entry of a Gmail payload's `parts` list. -/
structure MessagePart where
  mimeType : String
  body : PartBody
deriving DecidableEq, Repr

/-- A Gmail message payload: the header list and the optional `parts` and
top-level `body` keys. -/
structure MessagePayload where
  headers : List (String × String)
  parts : Option (List MessagePart)
  body : Option PartBody
deriving DecidableEq, Repr

/-- A fetched Gmail message; `payload` is `none` when the `payload` key is
absent from the dictionary. -/
structure GmailMessage where
  id : String
  payload : Option MessagePayload
deriving DecidableEq, Repr

/-- `_get_email_body`: first the `parts` list is scanned for the first
`text/plain` part whose body carries `data`; failing that, the top-level
payload body's `data` is used; failing both (or with no payload at all) the
result is `none`. -/
def _get_email_body (message : GmailMessage) : Option String :=
  match message.payload with
  | none => none
  | some payload =>
    let fromParts :=
      match payload.parts with
      | none => none
      | some parts =>
        parts.findSome? fun part =>
          if part.mimeType = "text/plain" then part.body.data else none
    match fromParts with
    | some s => some s
    | none =>
      match payload.body with
      | some b => b.data
      | none => none

/-- Lookup in the header dictionary built by
`{h['name']: h['value'] for h in msg['payload']['headers']}` with a default,
as in `headers.get(name, d)`; a repeated header name keeps the last value. -/
def headerGet (headers : List (String × String)) (name d : String) : String :=
  (headers.reverse.lookup name).getD d

/-- The normalized record produced by `_extract_email_data`. -/
structure EmailData where
  sender : String
  subject : String
  received_at : Nat
  body : Option String
deriving DecidableEq, Repr

/-- `_extract_email_data`: builds the header dictionary, parses the `Date`
header with `parsedate_to_datetime` (modelled by the parameter `pd`) falling
back to `now` on any parse failure, and extracts the body.  Accessing
`msg['payload']['headers']` on a message without a payload raises, which is
modelled by the `none` result. -/
def _extract_email_data (pd : String → Option Nat) (now : Nat)
    (msg : GmailMessage) : Option EmailData :=
  match msg.payload with
  | none => none
  | some payload =>
    let date_str := headerGet payload.headers "Date" ""
    let received_at := (pd date_str).getD now
    some { sender := headerGet payload.headers "From" ""
           subject := headerGet payload.headers "Subject" ""
           received_at := received_at
           body := _get_email_body msg }

/-- Error raised by the persistent store on `commit`. -/
inductive DbError where
  | uniqueViolation
deriving DecidableEq, Repr

/-- The `ProcessedEmail(...)` constructor call inside
`_save_processed_email`: `body_snippet` is the first 500 characters of the
body when the body is truthy, `None` otherwise. -/
def processedRow (message_id : String) (email_data : EmailData)
    (success : Bool) : ProcessedEmail :=
  { message_id := message_id
    sender := email_data.sender
    subject := email_data.subject
    received_at := email_data.received_at
    forwarded_successfully := success
    body_snippet :=
      match email_data.body with
      | some s => if s = "" then none else some (s.take 500)
      | none => none }

/-- `_save_processed_email`: builds the `ProcessedEmail` row and commits it.
The UNIQUE constraint on `message_id` makes the commit raise an
`IntegrityError` when a row with the same id already exists; the source has
no handler for it, so the error propagates to the caller. -/
def _save_processed_email (message_id : String) (email_data : EmailData)
    (success : Bool) (db : List ProcessedEmail) :
    Except DbError (List ProcessedEmail × ProcessedEmail) :=
  let processed := processedRow message_id email_data success
  if db.any (fun r => r.message_id == message_id) then
    .error .uniqueViolation
  else
    .ok (db ++ [processed], processed)

/-- Mutable state threaded through message processing: the in-process
`_processed_ids` cache and the `processed_emails` table. -/
structure ProcState where
  processedIds : List String
  db : List ProcessedEmail
deriving DecidableEq, Repr

/-- Observable result of `_process_email_message`: the new state, whether
the full message was fetched, the webhook requests issued, the row inserted
(if any), and whether an exception escaped. -/
structure ProcResult where
  state : ProcState
  fetched : Bool
  requests : List WebhookRequest
  inserted : Option ProcessedEmail
  raised : Bool
deriving DecidableEq, Repr

/-- `_process_email_message`: skip if the id is in the in-process cache;
skip (after backfilling the cache) if a `ProcessedEmail` row already exists;
otherwise fetch the message, extract its data, skip with a warning when no
body was extracted (Python truthiness: `None` or the empty string), forward
to the webhooks, save the row, and add the id to the cache. -/
def _process_email_message (fetch : String → GmailMessage)
    (webhookDb : List WebhookConfig) (outcome : Nat → WebhookOutcome)
    (pd : String → Option Nat) (now : Nat) (st : ProcState)
    (message_id : String) : ProcResult :=
  if st.processedIds.contains message_id then
    ⟨st, false, [], none, false⟩
  else if st.db.any (fun r => r.message_id == message_id) then
    ⟨{ st with processedIds := message_id :: st.processedIds },
      false, [], none, false⟩
  else
    let msg := fetch message_id
    match _extract_email_data pd now msg with
    | none => ⟨st, true, [], none, true⟩
    | some email_data =>
      match email_data.body with
      | none => ⟨st, true, [], none, false⟩
      | some body =>
        if body = "" then ⟨st, true, [], none, false⟩
        else
          let fwd := _forward_to_webhooks body email_data.subject
            email_data.sender webhookDb outcome now
          match _save_processed_email message_id email_data fwd.1 st.db with
          | .error _ => ⟨st, true, fwd.2, none, true⟩
          | .ok saved =>
            ⟨⟨message_id :: st.processedIds, saved.1⟩,
              true, fwd.2, some saved.2, false⟩

/-- One iteration of `_email_monitor_loop`: query the active monitor
configs, run `_check_emails` for each (returned as the list of configs
checked), then sleep `min(config.check_interval_seconds for config in
configs) if configs else 60` seconds. -/
def _email_monitor_loop_iteration (configDb : List EmailMonitorConfig) :
    List EmailMonitorConfig × Nat :=
  let configs := configDb.filter (fun c => c.active)
  let sleep :=
    match configs.map (fun c => c.check_interval_seconds) with
    | [] => 60
    | x :: xs => xs.foldl min x
  (configs, sleep)

/-- `_build_gmail_query`: `to:` clause, optional `from:` and `subject:`
clauses (Python truthiness skips `None` and the empty string), then an
`after:` clause at `datetime.now() - timedelta(days=1)` formatted as
`%Y/%m/%d`. -/
def _build_gmail_query (config : EmailMonitorConfig) (now : Nat) : String :=
  let query := "to:" ++ config.email_address
  let query :=
    match config.filter_sender with
    | some s => if s = "" then query else query ++ " from:" ++ s
    | none => query
  let query :=
    match config.filter_subject with
    | some s => if s = "" then query else query ++ " subject:" ++ s
    | none => query
  query ++ " after:" ++ strftimeYMD (now - 86400)

/-- Number of `ProcessedEmail` rows in the store carrying a given
`message_id`. -/
def recCount (mid : String) (db : List ProcessedEmail) : Nat :=
  (db.filter (fun r => r.message_id == mid)).length

/-- The store satisfies the schema's UNIQUE constraint: at most one row per
`message_id`. -/
def atMostOne (db : List ProcessedEmail) : Prop :=
  ∀ mid, recCount mid db ≤ 1

end EmailForwarder

namespace Forwarder

open EmailForwarder

/-- The delivery loop of `_forward_to_webhooks` in
`src/email_forwarder/app/services/processor.py`: `success` is only ever set
to `True` on a status below 300 and is never reset, so it accumulates. -/
def forwardLoop (body : String) (payload : List (String × JsonVal))
    (outcome : Nat → WebhookOutcome) :
    List WebhookConfig → Nat → Bool → Bool × List WebhookRequest
  | [], _, success => (success, [])
  | w :: rest, i, success =>
    let r := _send_to_webhook w body payload (outcome i)
    let tail := forwardLoop body payload outcome rest (i + 1) (success || r.1)
    (tail.1, r.2 :: tail.2)

/-- `_forward_to_webhooks` in
`src/email_forwarder/app/services/processor.py` (the accumulating
variant). -/
def _forward_to_webhooks (body subject sender : String)
    (webhookDb : List WebhookConfig) (outcome : Nat → WebhookOutcome)
    (now : Nat) : Bool × List WebhookRequest :=
  let webhooks := webhookDb.filter (fun w => w.active)
  if webhooks.isEmpty then (false, [])
  else
    let payload := buildPayload body subject sender now
    forwardLoop body payload outcome webhooks 0 false

end Forwarder

namespace EmailForwarder

/-! Concrete fixtures used by counterexamples and witnesses. -/

/-- An active webhook in structured (JSON) mode. -/
def whJson : WebhookConfig :=
  ⟨"w1", "https://w1.example/hook", true, "application/json", false⟩

/-- An active webhook in raw-body mode. -/
def whRaw : WebhookConfig :=
  ⟨"w2", "https://w2.example/hook", true, "text/plain", true⟩

/-- An inactive webhook. -/
def whOff : WebhookConfig :=
  ⟨"w3", "https://w3.example/hook", false, "application/json", false⟩

/-- An active monitor with a 30-second interval. -/
def cfg30 : EmailMonitorConfig :=
  ⟨"alerts@example.com", none, none, 30, true⟩

/-- An active monitor with a 45-second interval. -/
def cfg45 : EmailMonitorConfig :=
  ⟨"alerts2@example.com", some "Signal", some "bot@example.com", 45, true⟩

/-- An inactive monitor with a 10-second interval. -/
def cfgOff : EmailMonitorConfig :=
  ⟨"alerts3@example.com", none, none, 10, false⟩

/-- A fetched message with a decodable `text/plain` part. -/
def sampleMsg : GmailMessage :=
  { id := "abc123"
    payload := some
      { headers := [("From", "bot@example.com"), ("Subject", "Signal"),
                    ("Date", "Sun, 12 Oct 2025 00:00:00 +0000")]
        parts := some [⟨"text/html", ⟨some "<p>BUY XYZ</p>"⟩⟩,
                       ⟨"text/plain", ⟨some "BUY XYZ"⟩⟩]
        body := none } }

/-- A payload whose `text/plain` part and top-level body carry no data. -/
def sampleNoBodyPayload : MessagePayload :=
  { headers := [("From", "bot@example.com"), ("Subject", "Signal")]
    parts := some [⟨"text/html", ⟨some "<p>BUY XYZ</p>"⟩⟩,
                   ⟨"text/plain", ⟨none⟩⟩]
    body := some ⟨none⟩ }

/-- A fetched message carrying `sampleNoBodyPayload`. -/
def sampleNoBodyMsg : GmailMessage :=
  { id := "nobody1", payload := some sampleNoBodyPayload }

/-- A `ProcessedEmail` row already present in the store. -/
def dupRecord : ProcessedEmail :=
  ⟨"abc123", "bot@example.com", "Signal", 1760227200, true, some "BUY XYZ"⟩

/-- Normalized data for the duplicate-insert scenario. -/
def dupEmailData : EmailData :=
  ⟨"bot@example.com", "Signal", 1760227200, some "BUY XYZ"⟩

/-! Helper lemmas. -/

/-- The requests issued by the `src/app` delivery loop are one per webhook,
independent of the outcomes and of the running `success` flag. -/
theorem forwardLoop_requests (body : String) (payload : List (String × JsonVal))
    (outcome : Nat → WebhookOutcome) (ws : List WebhookConfig) :
    ∀ i acc, (forwardLoop body payload outcome ws i acc).2 =
      ws.map (fun w =>
        { url := w.url, contentType := w.content_type,
          body := if w.send_raw_body then HttpBody.raw body
                  else HttpBody.jsonBody payload }) := by
  induction ws with
  | nil => intro i acc; rfl
  | cons w rest ih =>
    intro i acc
    simp only [forwardLoop, List.map_cons, ih]
    cases outcome i <;> rfl

/-- Full characterization of the request list produced by
`_forward_to_webhooks`: one POST per active webhook, raw body or the JSON
payload according to `send_raw_body`, with the webhook's content type. -/
theorem forward_requests (body subject sender : String)
    (webhookDb : List WebhookConfig) (outcome : Nat → WebhookOutcome)
    (now : Nat) :
    (_forward_to_webhooks body subject sender webhookDb outcome now).2 =
      (webhookDb.filter (fun w => w.active)).map (fun w =>
        { url := w.url, contentType := w.content_type,
          body := if w.send_raw_body then HttpBody.raw body
                  else HttpBody.jsonBody (buildPayload body subject sender now) }) := by
  unfold _forward_to_webhooks
  cases h : webhookDb.filter (fun w => w.active) with
  | nil => simp
  | cons w rest =>
    simp only [List.isEmpty_cons, Bool.false_eq_true, if_false]
    exact forwardLoop_requests _ _ _ _ 0 false

end EmailForwarder

namespace EmailForwarder

/-- The running minimum computed by folding `min` never exceeds its initial
value. -/
theorem foldl_min_le_init (xs : List Nat) (x : Nat) : xs.foldl min x ≤ x := by
  induction xs generalizing x with
  | nil => exact le_refl x
  | cons y ys ih => exact le_trans (ih (min x y)) (min_le_left x y)

/-- The running minimum never exceeds any element folded over. -/
theorem foldl_min_le_mem (xs : List Nat) (x a : Nat) (h : a ∈ xs) :
    xs.foldl min x ≤ a := by
  induction xs generalizing x with
  | nil => cases h
  | cons y ys ih =>
    rcases List.mem_cons.mp h with rfl | h2
    · exact le_trans (foldl_min_le_init ys (min x a)) (min_le_right x a)
    · exact ih (min x y) h2

/-- The fold result is the initial value or one of the folded elements. -/
theorem foldl_min_mem_or_init (xs : List Nat) (x : Nat) :
    xs.foldl min x = x ∨ xs.foldl min x ∈ xs := by
  induction xs generalizing x with
  | nil => exact Or.inl rfl
  | cons y ys ih =>
    rcases ih (min x y) with h | h
    · rcases Nat.le_total x y with hxy | hxy
      · exact Or.inl (by rw [List.foldl_cons, h, min_eq_left hxy])
      · refine Or.inr (List.mem_cons.mpr (Or.inl ?_))
        rw [List.foldl_cons, h, min_eq_right hxy]
    · exact Or.inr (List.mem_cons_of_mem _ h)

/-- `min` over a nonempty list, Python style: bounded by every element. -/
theorem foldl_min_le_all (x : Nat) (xs : List Nat) (a : Nat)
    (h : a ∈ x :: xs) : xs.foldl min x ≤ a := by
  rcases List.mem_cons.mp h with rfl | h2
  · exact foldl_min_le_init xs a
  · exact foldl_min_le_mem xs x a h2

/-- `min` over a nonempty list, Python style: attained by some element. -/
theorem foldl_min_mem (x : Nat) (xs : List Nat) :
    xs.foldl min x ∈ x :: xs := by
  rcases foldl_min_mem_or_init xs x with h | h
  · rw [h]; exact List.mem_cons_self _ _
  · exact List.mem_cons_of_mem _ h

/-! Claim theorems. -/

/-- C1: the claim states that dispatch returns success exactly when at least
one webhook accepted with HTTP status below 300, independent of the last
webhook's outcome.  On `_forward_to_webhooks` of
`src/app/services/processor.py` this fails: with two active webhooks whose
outcomes are 200 then 500, the first acceptance satisfies the success
predicate (`_process_webhook_response 200 = true`), yet dispatch returns
`false`, because each loop iteration overwrites `success` with that
webhook's result.  The sibling implementation in
`src/email_forwarder/app/services/processor.py` returns `true` on the very
same input, matching the stated at-least-one semantics. -/
theorem claim_C1_dispatch_last_result_wins :
    _process_webhook_response 200 = true ∧
    (_forward_to_webhooks "BUY XYZ" "Signal" "bot@example.com"
      [whJson, whRaw]
      (fun i => if i = 0 then .status 200 else .status 500) 1760227200).1
      = false ∧
    (Forwarder._forward_to_webhooks "BUY XYZ" "Signal" "bot@example.com"
      [whJson, whRaw]
      (fun i => if i = 0 then .status 200 else .status 500) 1760227200).1
      = true := by
  refine ⟨rfl, ?_, ?_⟩ <;> rfl

/-- C3 counterexample: the claim states that a uniqueness violation during
the insert raises no error and is a benign no-op.  On
`_save_processed_email` of `src/app/services/processor.py`, committing a row
whose `message_id` already exists raises the store's `IntegrityError` to the
caller: there is no handler in the function. -/
theorem claim_C3_duplicate_insert_raises_cex :
    _save_processed_email "abc123" dupEmailData true [dupRecord] =
      .error .uniqueViolation := rfl

/-- C3 amended: when the persistent store rejects the insert due to the
uniqueness constraint on `message_id`, `_save_processed_email` propagates
the error to its caller (it neither swallows it nor updates the in-process
dedup cache, which it never touches). -/
theorem claim_C3_duplicate_insert_propagates (mid : String) (ed : EmailData)
    (succ : Bool) (db : List ProcessedEmail)
    (h : db.any (fun r => r.message_id == mid) = true) :
    _save_processed_email mid ed succ db = .error .uniqueViolation := by
  unfold _save_processed_email
  simp [h]

/-- C3 amended, witness at a concrete store state. -/
theorem claim_C3_duplicate_insert_propagates_witness :
    _save_processed_email "dup2" ⟨"s", "t", 5, some "x"⟩ false
      [⟨"dup2", "s0", "t0", 4, false, none⟩] = .error .uniqueViolation :=
  claim_C3_duplicate_insert_propagates "dup2" ⟨"s", "t", 5, some "x"⟩ false
    [⟨"dup2", "s0", "t0", 4, false, none⟩] (by decide)

/-- C5: every POST built by the dispatch carries the webhook's declared
content type and, in raw mode, exactly the extracted plain-text body, and in
structured mode the JSON payload whose keys are exactly `body`, `subject`,
`sender`, `timestamp`: the request list equals one such request per active
webhook. -/
theorem claim_C5_request_shapes (body subject sender : String)
    (webhookDb : List WebhookConfig) (outcome : Nat → WebhookOutcome)
    (now : Nat) :
    (_forward_to_webhooks body subject sender webhookDb outcome now).2 =
      (webhookDb.filter (fun w => w.active)).map (fun w =>
        { url := w.url, contentType := w.content_type,
          body := if w.send_raw_body then HttpBody.raw body
                  else HttpBody.jsonBody
                    (buildPayload body subject sender now) }) ∧
    (buildPayload body subject sender now).map Prod.fst =
      ["body", "subject", "sender", "timestamp"] :=
  ⟨forward_requests body subject sender webhookDb outcome now, rfl⟩

/-- C9: the query built by `_build_gmail_query` always ends with an
`after:` clause at the fixed value `now` minus one day (86400 seconds),
formatted year/month/day, whatever the monitor's configuration; concretely,
one day before 2025-10-12 00:00:00 UTC formats as `2025/10/11`. -/
theorem claim_C9_query_one_day_window (config : EmailMonitorConfig)
    (now : Nat) :
    (∃ p, _build_gmail_query config now =
      p ++ " after:" ++ strftimeYMD (now - 86400)) ∧
    strftimeYMD (1760227200 - 86400) = "2025/10/11" :=
  ⟨⟨_, rfl⟩, rfl⟩

end EmailForwarder

namespace EmailForwarder

/-- C8: one poll-loop iteration checks exactly the active monitor configs
fetched at its start, then sleeps 60 seconds when there are none and the
minimum `check_interval_seconds` over the active configs otherwise (the
sleep is bounded by every active config's interval and attained by one of
them). -/
theorem claim_C8_iteration_sleep (configDb : List EmailMonitorConfig) :
    (_email_monitor_loop_iteration configDb).1 =
      configDb.filter (fun c => c.active) ∧
    ((_email_monitor_loop_iteration configDb).1 = [] →
      (_email_monitor_loop_iteration configDb).2 = 60) ∧
    (∀ c ∈ (_email_monitor_loop_iteration configDb).1,
      (_email_monitor_loop_iteration configDb).2 ≤
        c.check_interval_seconds) ∧
    ((_email_monitor_loop_iteration configDb).1 ≠ [] →
      ∃ c ∈ (_email_monitor_loop_iteration configDb).1,
        (_email_monitor_loop_iteration configDb).2 =
          c.check_interval_seconds) := by
  unfold _email_monitor_loop_iteration
  cases hc : configDb.filter (fun c => c.active) with
  | nil => exact ⟨rfl, fun _ => rfl, fun c hc2 => absurd hc2 (by simp), fun h => absurd rfl h⟩
  | cons c0 cs =>
    refine ⟨rfl, by simp, ?_, ?_⟩
    · intro c hmem
      have : c.check_interval_seconds ∈
          c0.check_interval_seconds :: cs.map (fun c => c.check_interval_seconds) := by
        rw [← List.map_cons]
        exact List.mem_map_of_mem _ hmem
      simpa using foldl_min_le_all _ _ _ this
    · intro _
      have hmem := foldl_min_mem c0.check_interval_seconds
        (cs.map (fun c => c.check_interval_seconds))
      rw [← List.map_cons] at hmem
      rcases List.mem_map.mp hmem with ⟨c, hcmem, hval⟩
      exact ⟨c, hcmem, by simpa using hval.symm⟩

/-- C8 witness: with monitors at 30s (active), 10s (inactive) and 45s
(active) the iteration sleeps the interval of one of the active configs,
and with no monitors it sleeps 60 seconds. -/
theorem claim_C8_iteration_sleep_witness :
    (∃ c ∈ (_email_monitor_loop_iteration [cfg30, cfgOff, cfg45]).1,
      (_email_monitor_loop_iteration [cfg30, cfgOff, cfg45]).2 =
        c.check_interval_seconds) ∧
    (_email_monitor_loop_iteration []).2 = 60 :=
  ⟨(claim_C8_iteration_sleep [cfg30, cfgOff, cfg45]).2.2.2 (by decide),
   (claim_C8_iteration_sleep []).2.1 rfl⟩

end EmailForwarder

namespace EmailForwarder

/-- C7: extraction never fails on a message with a payload: when the parse
of the `Date` header string fails (including the empty string that
`headers.get('Date', '')` yields for an absent header), `received_at` falls
back to the processing time `now`, and when the parse succeeds,
`received_at` is the parsed value. -/
theorem claim_C7_date_fallback (pd : String → Option Nat) (now : Nat)
    (msg : GmailMessage) (payload : MessagePayload)
    (hp : msg.payload = some payload) :
    ∃ ed, _extract_email_data pd now msg = some ed ∧
      (pd (headerGet payload.headers "Date" "") = none →
        ed.received_at = now) ∧
      (∀ t, pd (headerGet payload.headers "Date" "") = some t →
        ed.received_at = t) ∧
      (payload.headers.reverse.lookup "Date" = none →
        headerGet payload.headers "Date" "" = "") := by
  refine ⟨{ sender := headerGet payload.headers "From" ""
            subject := headerGet payload.headers "Subject" ""
            received_at := (pd (headerGet payload.headers "Date" "")).getD now
            body := _get_email_body msg }, ?_, ?_, ?_, ?_⟩
  · unfold _extract_email_data
    rw [hp]
  · intro h
    simp [h]
  · intro t ht
    simp [ht]
  · intro h
    simp [headerGet, h]

/-- C7 witness: on a concrete message whose `Date` header the parser
rejects, the extracted `received_at` is the processing time. -/
theorem claim_C7_date_fallback_witness :
    ∃ ed, _extract_email_data (fun _ => none) 1760227200 sampleMsg = some ed
      ∧ ed.received_at = 1760227200 := by
  rcases claim_C7_date_fallback (fun _ => none) 1760227200 sampleMsg
    (sampleMsg.payload.get rfl) rfl with ⟨ed, h1, h2, _, _⟩
  exact ⟨ed, h1, h2 rfl⟩

/-- Counting rows distributes over appending to the store. -/
theorem recCount_append (mid : String) (db1 db2 : List ProcessedEmail) :
    recCount mid (db1 ++ db2) = recCount mid db1 + recCount mid db2 := by
  simp [recCount, List.filter_append]

/-- A store whose duplicate check comes back false holds no row with that
id. -/
theorem recCount_eq_zero (mid : String) (db : List ProcessedEmail)
    (h : db.any (fun r => r.message_id == mid) = false) :
    recCount mid db = 0 := by
  rw [recCount, List.length_eq_zero, List.filter_eq_nil_iff]
  intro r hr
  exact (List.any_eq_false.mp h) r hr

/-- Path lemma: a cache hit returns immediately. -/
theorem process_cache_hit (fetch : String → GmailMessage)
    (webhookDb : List WebhookConfig) (outcome : Nat → WebhookOutcome)
    (pd : String → Option Nat) (now : Nat) (st : ProcState) (m : String)
    (h : st.processedIds.contains m = true) :
    _process_email_message fetch webhookDb outcome pd now st m =
      ⟨st, false, [], none, false⟩ := by
  unfold _process_email_message
  rw [if_pos h]

/-- Path lemma: a store hit backfills the cache and returns. -/
theorem process_db_hit (fetch : String → GmailMessage)
    (webhookDb : List WebhookConfig) (outcome : Nat → WebhookOutcome)
    (pd : String → Option Nat) (now : Nat) (st : ProcState) (m : String)
    (h1 : st.processedIds.contains m = false)
    (h2 : st.db.any (fun r => r.message_id == m) = true) :
    _process_email_message fetch webhookDb outcome pd now st m =
      ⟨⟨m :: st.processedIds, st.db⟩, false, [], none, false⟩ := by
  unfold _process_email_message
  rw [if_neg (by simpa using h1), if_pos h2]

/-- Path lemma: extraction raising (message without payload) propagates. -/
theorem process_extract_raised (fetch : String → GmailMessage)
    (webhookDb : List WebhookConfig) (outcome : Nat → WebhookOutcome)
    (pd : String → Option Nat) (now : Nat) (st : ProcState) (m : String)
    (h1 : st.processedIds.contains m = false)
    (h2 : st.db.any (fun r => r.message_id == m) = false)
    (hext : _extract_email_data pd now (fetch m) = none) :
    _process_email_message fetch webhookDb outcome pd now st m =
      ⟨st, true, [], none, true⟩ := by
  unfold _process_email_message
  rw [if_neg (by simpa using h1), if_neg (by simpa using h2)]
  simp only [hext]

/-- Path lemma: a message with no extracted body is skipped, unrecorded. -/
theorem process_body_missing (fetch : String → GmailMessage)
    (webhookDb : List WebhookConfig) (outcome : Nat → WebhookOutcome)
    (pd : String → Option Nat) (now : Nat) (st : ProcState) (m : String)
    (ed : EmailData)
    (h1 : st.processedIds.contains m = false)
    (h2 : st.db.any (fun r => r.message_id == m) = false)
    (hext : _extract_email_data pd now (fetch m) = some ed)
    (hbo : ed.body = none) :
    _process_email_message fetch webhookDb outcome pd now st m =
      ⟨st, true, [], none, false⟩ := by
  unfold _process_email_message
  rw [if_neg (by simpa using h1), if_neg (by simpa using h2)]
  simp only [hext, hbo]

/-- Path lemma: a message whose extracted body is the empty string (falsy
in Python) is likewise skipped. -/
theorem process_body_empty (fetch : String → GmailMessage)
    (webhookDb : List WebhookConfig) (outcome : Nat → WebhookOutcome)
    (pd : String → Option Nat) (now : Nat) (st : ProcState) (m : String)
    (ed : EmailData)
    (h1 : st.processedIds.contains m = false)
    (h2 : st.db.any (fun r => r.message_id == m) = false)
    (hext : _extract_email_data pd now (fetch m) = some ed)
    (hbo : ed.body = some "") :
    _process_email_message fetch webhookDb outcome pd now st m =
      ⟨st, true, [], none, false⟩ := by
  unfold _process_email_message
  rw [if_neg (by simpa using h1), if_neg (by simpa using h2)]
  simp [hext, hbo]

/-- Committing a fresh id succeeds and appends the row. -/
theorem save_ok (mid : String) (ed : EmailData) (succ : Bool)
    (db : List ProcessedEmail)
    (h : db.any (fun r => r.message_id == mid) = false) :
    _save_processed_email mid ed succ db =
      .ok (db ++ [processedRow mid ed succ], processedRow mid ed succ) := by
  unfold _save_processed_email
  rw [if_neg (by simp [h])]

/-- Path lemma: a fresh message with a nonempty body is forwarded and
recorded, and its id cached. -/
theorem process_new_message (fetch : String → GmailMessage)
    (webhookDb : List WebhookConfig) (outcome : Nat → WebhookOutcome)
    (pd : String → Option Nat) (now : Nat) (st : ProcState) (m : String)
    (ed : EmailData) (b : String)
    (h1 : st.processedIds.contains m = false)
    (h2 : st.db.any (fun r => r.message_id == m) = false)
    (hext : _extract_email_data pd now (fetch m) = some ed)
    (hbo : ed.body = some b) (hbe : b ≠ "") :
    _process_email_message fetch webhookDb outcome pd now st m =
      ⟨⟨m :: st.processedIds,
        st.db ++ [processedRow m ed
          (_forward_to_webhooks b ed.subject ed.sender webhookDb outcome now).1]⟩,
       true,
       (_forward_to_webhooks b ed.subject ed.sender webhookDb outcome now).2,
       some (processedRow m ed
         (_forward_to_webhooks b ed.subject ed.sender webhookDb outcome now).1),
       false⟩ := by
  unfold _process_email_message
  rw [if_neg (by simpa using h1), if_neg (by simpa using h2)]
  simp only [hext, hbo, if_neg hbe,
    save_ok m ed
      (_forward_to_webhooks b ed.subject ed.sender webhookDb outcome now).1
      st.db h2]

/-- A singleton store holds no row for any other id. -/
theorem recCount_singleton_ne (mid : String) (rec : ProcessedEmail)
    (h : rec.message_id ≠ mid) : recCount mid [rec] = 0 := by
  simp [recCount, h]

/-- Processing any message preserves the UNIQUE constraint on
`message_id`: the only path that inserts a row is guarded by the
duplicate check, so each id's row count stays at most one. -/
theorem process_preserves_atMostOne (fetch : String → GmailMessage)
    (webhookDb : List WebhookConfig) (outcome : Nat → WebhookOutcome)
    (pd : String → Option Nat) (now : Nat) (st : ProcState) (m : String)
    (h : atMostOne st.db) :
    atMostOne
      (_process_email_message fetch webhookDb outcome pd now st m).state.db := by
  cases h1 : st.processedIds.contains m with
  | true => rw [process_cache_hit fetch webhookDb outcome pd now st m h1]; exact h
  | false =>
  cases h2 : st.db.any (fun r => r.message_id == m) with
  | true => rw [process_db_hit fetch webhookDb outcome pd now st m h1 h2]; exact h
  | false =>
  cases hext : _extract_email_data pd now (fetch m) with
  | none =>
    rw [process_extract_raised fetch webhookDb outcome pd now st m h1 h2 hext]
    exact h
  | some ed =>
  cases hbo : ed.body with
  | none =>
    rw [process_body_missing fetch webhookDb outcome pd now st m ed h1 h2 hext hbo]
    exact h
  | some b =>
  by_cases hbe : b = ""
  · subst hbe
    rw [process_body_empty fetch webhookDb outcome pd now st m ed h1 h2 hext hbo]
    exact h
  · rw [process_new_message fetch webhookDb outcome pd now st m ed b h1 h2 hext hbo hbe]
    intro mid
    by_cases hm : mid = m
    · subst hm
      rw [recCount_append, recCount_eq_zero mid st.db h2]
      simp [recCount, processedRow]
    · rw [recCount_append, recCount_singleton_ne mid _ (by simp [processedRow, Ne.symm hm])]
      simpa using h mid

/-- C2: re-processing a message id that is already in the in-process cache
or already recorded in the store performs no fetch, issues no webhook
request, inserts no row and leaves the store unchanged; and processing any
message in any state preserves the at-most-one-row-per-id invariant. -/
theorem claim_C2_duplicate_noop (fetch : String → GmailMessage)
    (webhookDb : List WebhookConfig) (outcome : Nat → WebhookOutcome)
    (pd : String → Option Nat) (now : Nat) (st : ProcState) (m : String)
    (h : st.processedIds.contains m = true ∨
      st.db.any (fun r => r.message_id == m) = true) :
    (_process_email_message fetch webhookDb outcome pd now st m).fetched
      = false ∧
    (_process_email_message fetch webhookDb outcome pd now st m).requests
      = [] ∧
    (_process_email_message fetch webhookDb outcome pd now st m).inserted
      = none ∧
    (_process_email_message fetch webhookDb outcome pd now st m).state.db
      = st.db ∧
    (∀ st2 m2, atMostOne st2.db →
      atMostOne
        (_process_email_message fetch webhookDb outcome pd now st2 m2).state.db) := by
  have key : (_process_email_message fetch webhookDb outcome pd now st m).fetched
        = false ∧
      (_process_email_message fetch webhookDb outcome pd now st m).requests
        = [] ∧
      (_process_email_message fetch webhookDb outcome pd now st m).inserted
        = none ∧
      (_process_email_message fetch webhookDb outcome pd now st m).state.db
        = st.db := by
    cases h1 : st.processedIds.contains m with
    | true =>
      rw [process_cache_hit fetch webhookDb outcome pd now st m h1]
      exact ⟨rfl, rfl, rfl, rfl⟩
    | false =>
      rcases h with h | h
      · rw [h1] at h; cases h
      · rw [process_db_hit fetch webhookDb outcome pd now st m h1 h]
        exact ⟨rfl, rfl, rfl, rfl⟩
  exact ⟨key.1, key.2.1, key.2.2.1, key.2.2.2, fun st2 m2 =>
    process_preserves_atMostOne fetch webhookDb outcome pd now st2 m2⟩

/-- C2 witness: with the id already cached, processing is a no-op and the
invariant transfer applies to a concrete singleton store. -/
theorem claim_C2_duplicate_noop_witness :
    (_process_email_message (fun _ => sampleMsg) [whJson] (fun _ => .status 200)
      (fun _ => none) 1760227200 ⟨["abc123"], []⟩ "abc123").fetched = false ∧
    (_process_email_message (fun _ => sampleMsg) [whJson] (fun _ => .status 200)
      (fun _ => none) 1760227200 ⟨["abc123"], []⟩ "abc123").requests = [] := by
  rcases claim_C2_duplicate_noop (fun _ => sampleMsg) [whJson]
    (fun _ => .status 200) (fun _ => none) 1760227200 ⟨["abc123"], []⟩
    "abc123" (Or.inl rfl) with ⟨hf, hr, _, _, _⟩
  exact ⟨hf, hr⟩

end EmailForwarder

namespace EmailForwarder

/-- Evaluation of `_extract_email_data` on a message with a payload. -/
theorem extract_eq (pd : String → Option Nat) (now : Nat)
    (msg : GmailMessage) (payload : MessagePayload)
    (hp : msg.payload = some payload) :
    _extract_email_data pd now msg = some
      { sender := headerGet payload.headers "From" ""
        subject := headerGet payload.headers "Subject" ""
        received_at := (pd (headerGet payload.headers "Date" "")).getD now
        body := _get_email_body msg } := by
  unfold _extract_email_data
  rw [hp]

/-- When no `text/plain` part carries data and the top-level body carries
none, `_get_email_body` extracts nothing. -/
theorem get_email_body_none (msg : GmailMessage) (payload : MessagePayload)
    (hp : msg.payload = some payload)
    (hparts : ∀ parts, payload.parts = some parts →
      ∀ part ∈ parts, part.mimeType = "text/plain" → part.body.data = none)
    (hbody : ∀ b, payload.body = some b → b.data = none) :
    _get_email_body msg = none := by
  simp only [_get_email_body, hp]
  cases hps : payload.parts with
  | none =>
    cases hb : payload.body with
    | none => rfl
    | some b => exact hbody b hb
  | some parts =>
    have h1 : (parts.findSome? fun part =>
        if part.mimeType = "text/plain" then part.body.data else none)
        = none := by
      rw [List.findSome?_eq_none_iff]
      intro part hmem
      by_cases hmime : part.mimeType = "text/plain"
      · rw [if_pos hmime]
        exact hparts parts hps part hmem hmime
      · rw [if_neg hmime]
    simp only [h1]
    cases hb : payload.body with
    | none => rfl
    | some b => exact hbody b hb

/-- C6: a fetched message whose payload has no `text/plain` part carrying
data and no top-level body data yields no extracted body, and processing it
issues no webhook request, inserts no row and leaves the store unchanged
(so a later poll may see it again). -/
theorem claim_C6_no_body_skips (fetch : String → GmailMessage)
    (webhookDb : List WebhookConfig) (outcome : Nat → WebhookOutcome)
    (pd : String → Option Nat) (now : Nat) (st : ProcState) (m : String)
    (payload : MessagePayload)
    (hp : (fetch m).payload = some payload)
    (hparts : ∀ parts, payload.parts = some parts →
      ∀ part ∈ parts, part.mimeType = "text/plain" → part.body.data = none)
    (hbody : ∀ b, payload.body = some b → b.data = none) :
    _get_email_body (fetch m) = none ∧
    (_process_email_message fetch webhookDb outcome pd now st m).requests
      = [] ∧
    (_process_email_message fetch webhookDb outcome pd now st m).inserted
      = none ∧
    (_process_email_message fetch webhookDb outcome pd now st m).state.db
      = st.db := by
  have hgb := get_email_body_none (fetch m) payload hp hparts hbody
  refine ⟨hgb, ?_⟩
  cases h1 : st.processedIds.contains m with
  | true =>
    rw [process_cache_hit fetch webhookDb outcome pd now st m h1]
    exact ⟨rfl, rfl, rfl⟩
  | false =>
    cases h2 : st.db.any (fun r => r.message_id == m) with
    | true =>
      rw [process_db_hit fetch webhookDb outcome pd now st m h1 h2]
      exact ⟨rfl, rfl, rfl⟩
    | false =>
      have hext := extract_eq pd now (fetch m) payload hp
      rw [process_body_missing fetch webhookDb outcome pd now st m _ h1 h2
        hext hgb]
      exact ⟨rfl, rfl, rfl⟩

/-- C6 witness: a concrete message with an undecodable body is skipped. -/
theorem claim_C6_no_body_skips_witness :
    _get_email_body sampleNoBodyMsg = none ∧
    (_process_email_message (fun _ => sampleNoBodyMsg) [whJson]
      (fun _ => .status 200) (fun _ => none) 1760227200 ⟨[], []⟩
      "nobody1").requests = [] ∧
    (_process_email_message (fun _ => sampleNoBodyMsg) [whJson]
      (fun _ => .status 200) (fun _ => none) 1760227200 ⟨[], []⟩
      "nobody1").inserted = none ∧
    (_process_email_message (fun _ => sampleNoBodyMsg) [whJson]
      (fun _ => .status 200) (fun _ => none) 1760227200 ⟨[], []⟩
      "nobody1").state.db = ProcState.db ⟨[], []⟩ := by
  refine claim_C6_no_body_skips (fun _ => sampleNoBodyMsg) [whJson]
    (fun _ => .status 200) (fun _ => none) 1760227200 ⟨[], []⟩ "nobody1"
    sampleNoBodyPayload rfl ?_ ?_
  · intro parts hps part hmem hmime
    have hcase : part = (⟨"text/html", ⟨some "<p>BUY XYZ</p>"⟩⟩ : MessagePart)
        ∨ part = (⟨"text/plain", ⟨none⟩⟩ : MessagePart) := by
      cases Option.some.inj hps
      simpa using hmem
    rcases hcase with rfl | rfl
    · exact absurd hmime (by decide)
    · rfl
  · intro b hb
    cases Option.some.inj hb
    rfl

end EmailForwarder

namespace EmailForwarder

/-- C4: with no active webhook configured, dispatch returns `false` (and
issues no request) without raising, and a fresh message with a body is
still recorded with `forwarded_successfully = false`, its row appended to
the store so later polls skip it. -/
theorem claim_C4_no_active_webhooks (fetch : String → GmailMessage)
    (webhookDb : List WebhookConfig) (outcome : Nat → WebhookOutcome)
    (pd : String → Option Nat) (now : Nat) (st : ProcState) (m : String)
    (b : String)
    (hw : webhookDb.filter (fun w => w.active) = [])
    (hc : st.processedIds.contains m = false)
    (hdb : st.db.any (fun r => r.message_id == m) = false)
    (hb : _get_email_body (fetch m) = some b)
    (hne : b ≠ "") :
    (∀ s f, _forward_to_webhooks b s f webhookDb outcome now = (false, [])) ∧
    (_process_email_message fetch webhookDb outcome pd now st m).raised
      = false ∧
    (_process_email_message fetch webhookDb outcome pd now st m).requests
      = [] ∧
    ∃ rec, (_process_email_message fetch webhookDb outcome pd now st m).inserted
        = some rec ∧
      rec.forwarded_successfully = false ∧ rec.message_id = m ∧
      (_process_email_message fetch webhookDb outcome pd now st m).state.db
        = st.db ++ [rec] := by
  have hfwd : ∀ s f,
      _forward_to_webhooks b s f webhookDb outcome now = (false, []) := by
    intro s f
    unfold _forward_to_webhooks
    rw [hw]
    rfl
  refine ⟨hfwd, ?_⟩
  cases hpp : (fetch m).payload with
  | none =>
    rw [_get_email_body, hpp] at hb
    cases hb
  | some payload =>
    have hext := extract_eq pd now (fetch m) payload hpp
    rw [process_new_message fetch webhookDb outcome pd now st m _ b hc hdb
      hext hb hne]
    refine ⟨rfl, ?_,
      processedRow m
        { sender := headerGet payload.headers "From" ""
          subject := headerGet payload.headers "Subject" ""
          received_at := (pd (headerGet payload.headers "Date" "")).getD now
          body := _get_email_body (fetch m) } false,
      ?_, rfl, rfl, ?_⟩
    · simp [hfwd]
    · simp [hfwd]
    · simp [hfwd]

/-- C4 witness: a concrete fresh message processed against a store of
webhooks that are all inactive. -/
theorem claim_C4_no_active_webhooks_witness :
    _forward_to_webhooks "BUY XYZ" "Signal" "bot@example.com" [whOff]
      (fun _ => .status 200) 1760227200 = (false, []) ∧
    ∃ rec, (_process_email_message (fun _ => sampleMsg) [whOff]
        (fun _ => .status 200) (fun _ => none) 1760227200 ⟨[], []⟩
        "abc123").inserted = some rec ∧
      rec.forwarded_successfully = false := by
  rcases claim_C4_no_active_webhooks (fun _ => sampleMsg) [whOff]
    (fun _ => .status 200) (fun _ => none) 1760227200 ⟨[], []⟩ "abc123"
    "BUY XYZ" rfl rfl rfl rfl (by decide) with ⟨hf, _, _, rec, hi, hff, _, _⟩
  exact ⟨hf "Signal" "bot@example.com", rec, hi, hff⟩

end EmailForwarder

namespace EmailForwarder

/-- C10: the `timestamp` field of every structured (JSON) webhook payload is
the wall-clock time at which the fan-out began (the `now` at dispatch), and
the requests issued by the pipeline do not depend on the date parser at all,
so they are independent of the email's parsed `received_at`. -/
theorem claim_C10_timestamp_is_dispatch_time (body subject sender : String)
    (webhookDb : List WebhookConfig) (outcome : Nat → WebhookOutcome)
    (now : Nat) (fetch : String → GmailMessage)
    (pd1 pd2 : String → Option Nat) (st : ProcState) (m : String) :
    (∀ req ∈ (_forward_to_webhooks body subject sender webhookDb outcome
        now).2,
      ∀ p, req.body = HttpBody.jsonBody p →
        p.lookup "timestamp" = some (.str (isoformat now))) ∧
    (_process_email_message fetch webhookDb outcome pd1 now st m).requests =
      (_process_email_message fetch webhookDb outcome pd2 now st m).requests := by
  constructor
  · rw [forward_requests]
    intro req hreq p hp
    rcases List.mem_map.mp hreq with ⟨w, hw, rfl⟩
    by_cases hraw : w.send_raw_body = true
    · rw [if_pos hraw] at hp
      simp at hp
    · rw [if_neg hraw] at hp
      simp at hp
      subst hp
      rfl
  · cases h1 : st.processedIds.contains m with
    | true =>
      rw [process_cache_hit fetch webhookDb outcome pd1 now st m h1,
        process_cache_hit fetch webhookDb outcome pd2 now st m h1]
    | false =>
      cases h2 : st.db.any (fun r => r.message_id == m) with
      | true =>
        rw [process_db_hit fetch webhookDb outcome pd1 now st m h1 h2,
          process_db_hit fetch webhookDb outcome pd2 now st m h1 h2]
      | false =>
        cases hpp : (fetch m).payload with
        | none =>
          have he1 : _extract_email_data pd1 now (fetch m) = none := by
            unfold _extract_email_data
            rw [hpp]
          have he2 : _extract_email_data pd2 now (fetch m) = none := by
            unfold _extract_email_data
            rw [hpp]
          rw [process_extract_raised fetch webhookDb outcome pd1 now st m h1
              h2 he1,
            process_extract_raised fetch webhookDb outcome pd2 now st m h1
              h2 he2]
        | some payload =>
          have he1 := extract_eq pd1 now (fetch m) payload hpp
          have he2 := extract_eq pd2 now (fetch m) payload hpp
          cases hgb : _get_email_body (fetch m) with
          | none =>
            rw [process_body_missing fetch webhookDb outcome pd1 now st m _
                h1 h2 he1 hgb,
              process_body_missing fetch webhookDb outcome pd2 now st m _
                h1 h2 he2 hgb]
          | some b =>
            by_cases hbe : b = ""
            · subst hbe
              rw [process_body_empty fetch webhookDb outcome pd1 now st m _
                  h1 h2 he1 hgb,
                process_body_empty fetch webhookDb outcome pd2 now st m _
                  h1 h2 he2 hgb]
            · rw [process_new_message fetch webhookDb outcome pd1 now st m _
                  b h1 h2 he1 hgb hbe,
                process_new_message fetch webhookDb outcome pd2 now st m _
                  b h1 h2 he2 hgb hbe]

/-- C10 witness: on a concrete dispatch through one JSON-mode webhook, the
payload's `timestamp` is the ISO form of the dispatch time. -/
theorem claim_C10_timestamp_is_dispatch_time_witness :
    (buildPayload "B" "S" "F" 1760227200).lookup "timestamp" =
      some (.str (isoformat 1760227200)) :=
  (claim_C10_timestamp_is_dispatch_time "B" "S" "F" [whJson]
      (fun _ => .status 200) 1760227200 (fun _ => sampleMsg) (fun _ => none)
      (fun _ => some 7) ⟨[], []⟩ "abc123").1
    ⟨whJson.url, whJson.content_type,
      HttpBody.jsonBody (buildPayload "B" "S" "F" 1760227200)⟩
    (by decide) (buildPayload "B" "S" "F" 1760227200) rfl

end EmailForwarder
